import Mathlib

/-!
Shallow embedding of the `spk-app` NEAR contract (`src/src/lib.rs`,
`src/src/external.rs`) and verification of its specification claims.

Modelling conventions:
- `AccountId` is a `String`; `u128` values are `Nat` with arithmetic taken
  modulo `2^128` where the Rust code can overflow (release-mode wrapping);
  `i64` values are `Int` with the analogous wrap.
- A NEAR transaction either completes, returning the new contract state and
  the list of outbound cross-contract calls it issued, or panics
  (`require!` / `unwrap` / `expect`), which aborts the transaction and rolls
  back every state change.  Operations therefore return
  `Except String (Contract × List Effect)`: `error msg` is a panic with the
  given message and, by the host's rollback semantics, leaves the persisted
  state unchanged (`applyTx` makes this explicit).
- Outbound asynchronous calls (`ft_transfer`, `update_apr`,
  `get_staked_amount`) are recorded as `Effect`s carrying the address of the
  contract the call is sent to; their execution is external.
- `env::attached_deposit` and `env::signer_account_id()` enter as explicit
  parameters; `Self::now()` enters as an explicit `now : Int` parameter.
-/

deriving instance DecidableEq for Except

namespace Spk

abbrev AccountId := String

/-- Wrapping `u128` arithmetic: values reduced modulo `2 ^ 128`. -/
def u128wrap (x : Nat) : Nat := x % 2 ^ 128

/-- Wrapping `i64` arithmetic: values reduced into `[-2^63, 2^63)`. -/
def i64wrap (x : Int) : Int := (x + 2 ^ 63) % 2 ^ 64 - 2 ^ 63

/-- The Rust cast `x as u128` applied to an `i64`: sign-extension to 128 bits
reinterpreted as unsigned, i.e. the representative of `x` modulo `2 ^ 128`. -/
def i64AsU128 (x : Int) : Nat := (x % (2 : Int) ^ 128).toNat

/-- `Option::unwrap`: panics on `None` (the Rust panic message abbreviated). -/
def unwrapO {α : Type} : Option α → Except String α
  | some a => Except.ok a
  | none => Except.error "called Option::unwrap on a None value"

/-- The `Room` record of `lib.rs` (the escrow record persisted per room id). -/
structure Room where
  advisor : AccountId
  learner : AccountId
  start_time : Int
  amount_per_minute : Nat
  minutes_last : Int
  pending_amount : Nat
  claimed : Bool
  reverted : Bool
deriving Repr, DecidableEq

/-- The `Contract` state of `lib.rs`.  `room_list` is the `LookupMap`,
modelled as an association list where `insert` overwrites. -/
structure Contract where
  owner : AccountId
  staking_address : AccountId
  token_address : AccountId
  verified_amount : Nat
  room_list : List (Nat × Room)
deriving Repr, DecidableEq

/-- `LookupMap::get`. -/
def lmGet (m : List (Nat × Room)) (k : Nat) : Option Room :=
  (m.find? (fun p => p.1 == k)).map Prod.snd

/-- `LookupMap::contains_key`. -/
def lmContains (m : List (Nat × Room)) (k : Nat) : Bool :=
  (lmGet m k).isSome

/-- `LookupMap::insert` (overwrites any existing entry for the key). -/
def lmInsert (m : List (Nat × Room)) (k : Nat) (v : Room) : List (Nat × Room) :=
  (k, v) :: m.filter (fun p => p.1 != k)

/-- Outbound cross-contract calls, each tagged with the address of the
contract the call is sent to (the argument of `::ext(...)` in the source). -/
inductive Effect where
  | ftTransfer (sentTo : AccountId) (receiver_id : AccountId) (amount : Nat)
  | updateApr (sentTo : AccountId) (advisor_id : AccountId) (learner_vote : Nat)
  | getStakedAmount (sentTo : AccountId) (advisor_id : AccountId)
deriving Repr, DecidableEq

/-- `query_staked_amount` (lib.rs lines 237-249): issues `get_staked_amount`
for the advisor — addressed, in the source, to `self.token_address` — and
chains the `query_staked_amount_callback` continuation. -/
def query_staked_amount (c : Contract) (advisor_id : AccountId) : List Effect :=
  [Effect.getStakedAmount c.token_address advisor_id]

/-- `ft_on_transfer` (lib.rs lines 99-154): transfer-notification handler.
`msg = "create_room"` inserts a fresh room (after firing the staking query);
`msg = "extend_room"` extends an existing room.  Returns the new state, the
issued effects, and the `U128` return value. -/
def ft_on_transfer (now : Int) (c : Contract) (sender_id : AccountId)
    (_amount : Nat) (msg : String) (advisorArg : Option AccountId)
    (amountPerMinuteArg : Option Nat) (roomIdArg : Option Nat)
    (minutesLastsArg : Option Int) :
    Except String (Contract × List Effect × Nat) :=
  match unwrapO amountPerMinuteArg with
  | Except.error e => Except.error e
  | Except.ok apm =>
  match unwrapO roomIdArg with
  | Except.error e => Except.error e
  | Except.ok rid =>
  if msg == "create_room" then
    match unwrapO advisorArg with
    | Except.error e => Except.error e
    | Except.ok adv =>
    match unwrapO minutesLastsArg with
    | Except.error e => Except.error e
    | Except.ok ml =>
      let effs := query_staked_amount c adv
      let pending := u128wrap (apm * i64AsU128 ml)
      let room : Room :=
        { advisor := adv, learner := sender_id, start_time := now,
          amount_per_minute := apm, minutes_last := ml,
          pending_amount := pending, claimed := false, reverted := false }
      Except.ok ({ c with room_list := lmInsert c.room_list rid room }, effs, 0)
  else if msg == "extend_room" then
    match unwrapO (lmGet c.room_list rid) with
    | Except.error e => Except.error e
    | Except.ok room =>
    if lmContains c.room_list rid != true then
      Except.error "App: Room not existed!"
    else if sender_id != room.learner then
      Except.error "App: Invalid learner!"
    else
      match unwrapO minutesLastsArg with
      | Except.error e => Except.error e
      | Except.ok ml =>
        let room' : Room :=
          { room with
            minutes_last := i64wrap (room.minutes_last + ml),
            pending_amount :=
              u128wrap (room.pending_amount + u128wrap (apm * i64AsU128 ml)) }
        Except.ok ({ c with room_list := lmInsert c.room_list rid room' }, [], 0)
  else
    Except.ok (c, [], 0)

/-- `end_room` (lib.rs lines 157-200): settlement path paying the advisor.
`deposit` is the attached deposit (`assert_one_yocto`), `signer` is
`env::signer_account_id()`.  The time gate of the time-gated variant is
commented out in the source (lines 180-184) and hence absent here. -/
def end_room (c : Contract) (deposit : Nat) (signer : AccountId)
    (_room_id : Nat) (_learner_vote : Nat) :
    Except String (Contract × List Effect) :=
  if deposit != 1 then
    Except.error "Requires attached deposit of exactly 1 yoctoNEAR"
  else if lmContains c.room_list _room_id != true then
    Except.error "App: Room not existed!"
  else
    match unwrapO (lmGet c.room_list _room_id) with
    | Except.error e => Except.error e
    | Except.ok room =>
    if room.claimed != false then
      Except.error "App: Already claimed!"
    else if room.reverted != false then
      Except.error "App: Already reverted!"
    else
      let effs : List Effect :=
        [Effect.updateApr c.token_address signer _learner_vote,
         Effect.ftTransfer c.token_address room.advisor
           (u128wrap (room.pending_amount * 95) / 100)]
      let room' : Room := { room with claimed := true }
      Except.ok ({ c with room_list := lmInsert c.room_list _room_id room' }, effs)

/-- `end_room` of the time-gated variant.  Modelled from the spec: the guard
`now − start_time ≥ minutes_last` ("App: Too early to reveive token!") is
present only as commented-out code in `src/src/lib.rs` lines 180-184; per the
spec (§4.2, §8.2) the time-gated variant enforces it between the flag checks
and the settlement effects.  Everything else is `end_room` as in the source. -/
def end_room_time_gated (now : Int) (c : Contract) (deposit : Nat)
    (signer : AccountId) (_room_id : Nat) (_learner_vote : Nat) :
    Except String (Contract × List Effect) :=
  if deposit != 1 then
    Except.error "Requires attached deposit of exactly 1 yoctoNEAR"
  else if lmContains c.room_list _room_id != true then
    Except.error "App: Room not existed!"
  else
    match unwrapO (lmGet c.room_list _room_id) with
    | Except.error e => Except.error e
    | Except.ok room =>
    if room.claimed != false then
      Except.error "App: Already claimed!"
    else if room.reverted != false then
      Except.error "App: Already reverted!"
    else if ¬ (i64wrap (now - room.start_time) ≥ room.minutes_last) then
      Except.error "App: Too early to reveive token!"
    else
      let effs : List Effect :=
        [Effect.updateApr c.token_address signer _learner_vote,
         Effect.ftTransfer c.token_address room.advisor
           (u128wrap (room.pending_amount * 95) / 100)]
      let room' : Room := { room with claimed := true }
      Except.ok ({ c with room_list := lmInsert c.room_list _room_id room' }, effs)

/-- `revert_token` (lib.rs lines 205-235): settlement path refunding the
learner.  Checks existence and the time window `now − start_time <
minutes_last`; issues the refund transfer and sets `reverted`. -/
def revert_token (now : Int) (c : Contract) (deposit : Nat) (_room_id : Nat) :
    Except String (Contract × List Effect) :=
  if deposit != 1 then
    Except.error "Requires attached deposit of exactly 1 yoctoNEAR"
  else if lmContains c.room_list _room_id != true then
    Except.error "App: Room not existed!"
  else
    match unwrapO (lmGet c.room_list _room_id) with
    | Except.error e => Except.error e
    | Except.ok room =>
    if ¬ (i64wrap (now - room.start_time) < room.minutes_last) then
      Except.error "App: Room already ended!"
    else
      let effs : List Effect :=
        [Effect.ftTransfer c.token_address room.learner
          (u128wrap (u128wrap (room.amount_per_minute * i64AsU128 room.minutes_last) * 95)
            / 100)]
      let room' : Room := { room with reverted := true }
      Except.ok ({ c with room_list := lmInsert c.room_list _room_id room' }, effs)

/-- `query_staked_amount_callback` (lib.rs lines 252-265): the staking-oracle
continuation.  `call_result = none` models a `PromiseError`. -/
def query_staked_amount_callback (c : Contract) (call_result : Option Nat) :
    Except String Nat :=
  match call_result with
  | none => Except.error "There was an error contacting staking contract"
  | some amount =>
    if amount < c.verified_amount then
      Except.error "App: Not an advisor!"
    else
      Except.ok amount

/-- Transaction semantics of a panic: an `error` aborts the transaction and
rolls back, so the persisted contract state is unchanged. -/
def applyTx (c : Contract) (r : Except String (Contract × List Effect)) :
    Contract :=
  match r with
  | Except.ok (c', _) => c'
  | Except.error _ => c

/-- The base58 alphabet of the `bs58` crate, as byte values. -/
def bs58Alphabet : List Nat :=
  "123456789ABCDEFGHJKLMNPQRSTUVWXYZabcdefghijkmnopqrstuvwxyz".data.map
    Char.toNat

/-- Index of a byte in the base58 alphabet, `none` for a non-alphabet byte. -/
def bs58Index (b : Nat) : Option Nat :=
  bs58Alphabet.indexOf? b

/-- Big-endian byte representation of a natural number, with a fuel argument
so that the recursion is structural (and hence kernel-reducible); `fuel = n`
always suffices since a number has at most `n` base-256 digits. -/
def natToBytesBEAux : Nat → Nat → List Nat
  | 0, _ => []
  | _ + 1, 0 => []
  | fuel + 1, n => natToBytesBEAux fuel (n / 256) ++ [n % 256]

/-- Big-endian byte representation of a natural number (empty for `0`). -/
def natToBytesBE (n : Nat) : List Nat := natToBytesBEAux n n

/-- `bs58::decode(..).into_vec()`: fails on any non-alphabet byte; otherwise
each leading `1` digit yields a leading zero byte, and the remaining digits
are read as a base-58 big-endian number. -/
def bs58decode (input : List Nat) : Option (List Nat) := do
  let digits ← input.mapM bs58Index
  let zeros := (digits.takeWhile (· == 0)).length
  let val := digits.foldl (fun acc d => acc * 58 + d) 0
  pure (List.replicate zeros 0 ++ natToBytesBE val)

/-- Byte values of an `AccountId` (`as_bytes`). -/
def accountBytes (a : AccountId) : List Nat := a.data.map Char.toNat

/-- `verify` (lib.rs lines 268-292).  The ed25519 library primitives enter as
parameters: `sigCanon` is the canonicity check `Signature::try_from` performs
beyond the 64-byte length check, `validPoint` the point-decompression check of
`PublicKey::from_bytes` beyond the 32-byte length check, and `edVerify key
message signature` the curve verification behind `public_key.verify`.  The
control flow — which inputs panic (`expect` / `unwrap`) and which return an
ordinary boolean — is the source's. -/
def verify (sigCanon : List Nat → Bool) (validPoint : List Nat → Bool)
    (edVerify : List Nat → List Nat → List Nat → Bool) (_c : Contract)
    (_signature : List Nat) (_signer_public_key : List Nat)
    (_account_id : AccountId) : Except String Bool :=
  if _signature.length != 64 || !(sigCanon _signature) then
    Except.error "Signature should be a valid array of 64 bytes"
  else
    match bs58decode _signer_public_key with
    | none => Except.error "called Result::unwrap on a bs58 decode error"
    | some keyBytes =>
      if keyBytes.length != 32 || !(validPoint keyBytes) then
        Except.error "called Result::unwrap on a PublicKey::from_bytes error"
      else
        Except.ok (edVerify keyBytes (accountBytes _account_id) _signature)

/-! Shared concrete states used by the concrete-evaluation theorems. -/

/-- A freshly created 10-minute room at rate 100, escrow 1000. -/
def exRoom : Room :=
  { advisor := "adv.near", learner := "lea.near", start_time := 0,
    amount_per_minute := 100, minutes_last := 10, pending_amount := 1000,
    claimed := false, reverted := false }

/-- A contract holding `exRoom` under id 1; note `staking_address` and
`token_address` differ. -/
def exContract : Contract :=
  { owner := "owner.near", staking_address := "staking.near",
    token_address := "token.near", verified_amount := 500,
    room_list := [(1, exRoom)] }

/-- Whether a transaction completed without panicking. -/
def exceptIsOk {ε α : Type} : Except ε α → Bool
  | Except.ok _ => true
  | Except.error _ => false

/-- State after `end_room` on `exContract`'s room 1 (advisor claims). -/
def afterEndRoom : Contract :=
  applyTx exContract (end_room exContract 1 "adv.near" 1 5)

/-- State after `end_room` and then `revert_token` (at `now = 0`, inside the
session window) on the same room. -/
def afterEndThenRevert : Contract :=
  applyTx afterEndRoom (revert_token 0 afterEndRoom 1 1)

/-- State after one successful `revert_token` (at `now = 0`) on room 1. -/
def afterRevert : Contract :=
  applyTx exContract (revert_token 0 exContract 1 1)

/-- The state a successful `end_room` on `exContract`'s room 1 produces. -/
def endRoomOkState : Contract :=
  { exContract with
    room_list := lmInsert exContract.room_list 1 { exRoom with claimed := true } }

/-- The effects a successful `end_room` on `exContract`'s room 1 issues. -/
def endRoomOkEffs : List Effect :=
  [Effect.updateApr "token.near" "adv.near" 5,
   Effect.ftTransfer "token.near" "adv.near" 950]

/-- The state a successful `revert_token` on `exContract`'s room 1 produces. -/
def revertOkState : Contract :=
  { exContract with
    room_list := lmInsert exContract.room_list 1 { exRoom with reverted := true } }

/-- The effects a successful `revert_token` on `exContract`'s room 1 issues. -/
def revertOkEffs : List Effect :=
  [Effect.ftTransfer "token.near" "lea.near" 950]

/-! ## General lemmas about the embedding -/

/-- `i64wrap` is the identity on values in the `i64` range. -/
theorem i64wrap_eq_self {x : Int} (h1 : -(2 ^ 63) ≤ x) (h2 : x < 2 ^ 63) :
    i64wrap x = x := by
  unfold i64wrap
  omega

/-- The cast `i64 as u128` is `Int.toNat` on nonnegative `i64` values. -/
theorem i64AsU128_eq_toNat {x : Int} (h1 : 0 ≤ x) (h2 : x < 2 ^ 63) :
    i64AsU128 x = x.toNat := by
  unfold i64AsU128
  rw [Int.emod_eq_of_lt h1 (lt_trans h2 (by norm_num))]

/-- `u128wrap` is the identity below `2 ^ 128`. -/
theorem u128wrap_eq_self {n : Nat} (h : n < 2 ^ 128) : u128wrap n = n := by
  unfold u128wrap
  omega

/-- A key present in the map is contained in it. -/
theorem lmContains_of_get {m : List (Nat × Room)} {k : Nat} {r : Room}
    (h : lmGet m k = some r) : lmContains m k = true := by
  simp [lmContains, h]

/-- Normal form of `revert_token` on an existing room with the 1-yocto
deposit attached: only the time-window check remains. -/
theorem revert_token_reduce (now : Int) (c : Contract) (rid : Nat) (room : Room)
    (hroom : lmGet c.room_list rid = some room) :
    revert_token now c 1 rid =
      if ¬ (i64wrap (now - room.start_time) < room.minutes_last) then
        Except.error "App: Room already ended!"
      else
        Except.ok
          ({ c with
              room_list := lmInsert c.room_list rid { room with reverted := true } },
            [Effect.ftTransfer c.token_address room.learner
              (u128wrap (u128wrap (room.amount_per_minute * i64AsU128 room.minutes_last) * 95)
                / 100)]) := by
  simp only [revert_token, lmContains_of_get hroom, hroom, unwrapO]
  norm_num

/-- Normal form of `end_room` on an existing room with the 1-yocto deposit
attached: only the two terminal-flag checks remain. -/
theorem end_room_reduce (c : Contract) (signer : AccountId) (rid vote : Nat)
    (room : Room) (hroom : lmGet c.room_list rid = some room) :
    end_room c 1 signer rid vote =
      if room.claimed = true then Except.error "App: Already claimed!"
      else if room.reverted = true then Except.error "App: Already reverted!"
      else
        Except.ok
          ({ c with
              room_list := lmInsert c.room_list rid { room with claimed := true } },
            [Effect.updateApr c.token_address signer vote,
             Effect.ftTransfer c.token_address room.advisor
               (u128wrap (room.pending_amount * 95) / 100)]) := by
  simp only [end_room, lmContains_of_get hroom, hroom, unwrapO]
  norm_num

/-- Normal form of the time-gated `end_room` variant on an existing room. -/
theorem end_room_tg_reduce (now : Int) (c : Contract) (signer : AccountId)
    (rid vote : Nat) (room : Room)
    (hroom : lmGet c.room_list rid = some room) :
    end_room_time_gated now c 1 signer rid vote =
      if room.claimed = true then Except.error "App: Already claimed!"
      else if room.reverted = true then Except.error "App: Already reverted!"
      else if i64wrap (now - room.start_time) < room.minutes_last then
        Except.error "App: Too early to reveive token!"
      else
        Except.ok
          ({ c with
              room_list := lmInsert c.room_list rid { room with claimed := true } },
            [Effect.updateApr c.token_address signer vote,
             Effect.ftTransfer c.token_address room.advisor
               (u128wrap (room.pending_amount * 95) / 100)]) := by
  simp only [end_room_time_gated, lmContains_of_get hroom, hroom, unwrapO]
  norm_num

/-- Normal form of the extend branch of `ft_on_transfer` on an existing room:
only the learner check and the `minutes` unwrap remain. -/
theorem extend_room_reduce (now : Int) (c : Contract) (sender : AccountId)
    (amt apm rid : Nat) (advArg : Option AccountId) (mlArg : Option Int)
    (room : Room) (hroom : lmGet c.room_list rid = some room) :
    ft_on_transfer now c sender amt "extend_room" advArg (some apm) (some rid) mlArg =
      if sender ≠ room.learner then Except.error "App: Invalid learner!"
      else
        match mlArg with
        | none => Except.error "called Option::unwrap on a None value"
        | some ml =>
          Except.ok
            ({ c with
                room_list := lmInsert c.room_list rid
                  { room with
                    minutes_last := i64wrap (room.minutes_last + ml),
                    pending_amount :=
                      u128wrap (room.pending_amount + u128wrap (apm * i64AsU128 ml)) } },
              [], 0) := by
  simp only [ft_on_transfer, unwrapO, lmContains_of_get hroom, hroom,
    show (("extend_room" : String) == "create_room") = false from by decide,
    show (("extend_room" : String) == "extend_room") = true from by decide]
  norm_num
  by_cases hs : sender = room.learner
  · cases mlArg <;> simp [hs]
  · simp [hs]

/-! ## Claims -/

/-- C1: the claimed invariant "claimed and reverted are never both true"
fails on the code: `revert_token` checks only the time window, not the
terminal flags, so `end_room` (which has no time gate in the source) followed
by `revert_token` inside the session window leaves room 1 with
`claimed = true` and `reverted = true`. -/
theorem end_room_then_revert_token_sets_both_flags :
    (lmGet afterEndThenRevert.room_list 1).map (fun r => (r.claimed, r.reverted)) =
      some (true, true) := by decide

/-- C2: the claim "a second terminal call is rejected" fails on the code:
after a successful `revert_token` at `now = 0`, a second `revert_token` at
`now = 0` succeeds again and issues a second 950-token refund, and an
`extend_room` transfer-notification on the reverted room is also accepted. -/
theorem revert_token_twice_second_call_succeeds :
    exceptIsOk (revert_token 0 exContract 1 1) = true ∧
    exceptIsOk (revert_token 0 afterRevert 1 1) = true ∧
    (revert_token 0 afterRevert 1 1).toOption.map Prod.snd =
      some [Effect.ftTransfer "token.near" "lea.near" 950] ∧
    exceptIsOk (ft_on_transfer 0 afterRevert "lea.near" 500 "extend_room" none
      (some 100) (some 1) (some 5)) = true := by decide

/-- C6: on a missing room id, the extend branch of `ft_on_transfer` panics
from `Option::unwrap` on `room_list.get` before ever reaching the
`"App: Room not existed!"` existence check, so the rejection reason is the
unwrap panic, not "Room not existed"; on an existing room with the recorded
learner as sender, `minutes_last` grows by exactly `minutes_added` (10 to 15)
and `pending_amount` by exactly `rate × minutes_added` (1000 to 1500), all
other fields unchanged. -/
theorem extend_missing_room_panics_before_existence_check :
    ft_on_transfer 0 exContract "lea.near" 500 "extend_room" none (some 100)
        (some 99) (some 5) =
      Except.error "called Option::unwrap on a None value" ∧
    "called Option::unwrap on a None value" ≠ "App: Room not existed!" ∧
    ft_on_transfer 0 exContract "lea.near" 500 "extend_room" none (some 100)
        (some 1) (some 5) =
      Except.ok ({ exContract with
          room_list := lmInsert exContract.room_list 1
            { exRoom with minutes_last := 15, pending_amount := 1500 } }, [], 0) := by
  decide

/-- C8: the claim that the staking query and the rating update are sent to
the staking-service address fails on the code: both `get_staked_amount`
(issued by `query_staked_amount` during room creation) and `update_apr`
(issued by `end_room`) are addressed to `self.token_address`, which differs
from `exContract.staking_address`; the `staking_address` field is never
read. -/
theorem staking_calls_sent_to_token_address :
    query_staked_amount exContract "adv.near" =
      [Effect.getStakedAmount exContract.token_address "adv.near"] ∧
    (ft_on_transfer 0 exContract "lea.near" 500 "create_room" (some "adv.near")
        (some 100) (some 2) (some 5)).toOption.map (fun p => p.2.1) =
      some [Effect.getStakedAmount "token.near" "adv.near"] ∧
    (end_room exContract 1 "adv.near" 1 5).toOption.map Prod.snd =
      some [Effect.updateApr "token.near" "adv.near" 5,
            Effect.ftTransfer "token.near" "adv.near" 950] ∧
    exContract.token_address ≠ exContract.staking_address := by decide

/-- C3: for an existing room (with the mandatory 1-yocto deposit attached and
times in the `i64` range), `revert_token` succeeds if and only if
`now − start_time < minutes_last`; at exactly `minutes_last` or later it is
rejected with "App: Room already ended!" and, by the rollback semantics, the
contract state — in particular the room record — is unchanged. -/
theorem revert_token_succeeds_iff_before_minutes_last
    (now : Int) (c : Contract) (rid : Nat) (room : Room)
    (hroom : lmGet c.room_list rid = some room)
    (h1 : -(2 ^ 63) ≤ now - room.start_time)
    (h2 : now - room.start_time < 2 ^ 63) :
    (exceptIsOk (revert_token now c 1 rid) = true ↔
        now - room.start_time < room.minutes_last) ∧
    (room.minutes_last ≤ now - room.start_time →
        revert_token now c 1 rid = Except.error "App: Room already ended!" ∧
        applyTx c (revert_token now c 1 rid) = c) := by
  have hred := revert_token_reduce now c rid room hroom
  rw [i64wrap_eq_self h1 h2] at hred
  rw [hred]
  by_cases hlt : now - room.start_time < room.minutes_last
  · exact ⟨by simp [hlt, exceptIsOk], fun hge => absurd hlt (by omega)⟩
  · exact ⟨by simp [hlt, exceptIsOk], fun hge => by simp [hlt, applyTx]⟩

/-- C3 witness: at `now = 10` the window of `exRoom` (10 minutes from time 0)
has exactly elapsed, so `revert_token` is rejected with
"App: Room already ended!" and the state is unchanged. -/
theorem revert_token_succeeds_iff_before_minutes_last_witness :
    (exceptIsOk (revert_token 10 exContract 1 1) = true ↔
        (10 : Int) - exRoom.start_time < exRoom.minutes_last) ∧
    (exRoom.minutes_last ≤ (10 : Int) - exRoom.start_time →
        revert_token 10 exContract 1 1 = Except.error "App: Room already ended!" ∧
        applyTx exContract (revert_token 10 exContract 1 1) = exContract) :=
  revert_token_succeeds_iff_before_minutes_last 10 exContract 1 exRoom
    (by decide) (by decide) (by decide)

/-- C4: in the time-gated variant (modelled from the spec, the guard being
commented out in the source), `end_room` on a fresh room (both flags false,
deposit attached, times in `i64` range) before `now − start_time ≥
minutes_last` is rejected with "App: Too early to reveive token!" and leaves
the contract state unchanged. -/
theorem end_room_time_gated_rejects_early
    (now : Int) (c : Contract) (rid : Nat) (room : Room) (signer : AccountId)
    (vote : Nat) (hroom : lmGet c.room_list rid = some room)
    (hcl : room.claimed = false) (hrv : room.reverted = false)
    (h1 : -(2 ^ 63) ≤ now - room.start_time)
    (h2 : now - room.start_time < 2 ^ 63)
    (hearly : now - room.start_time < room.minutes_last) :
    end_room_time_gated now c 1 signer rid vote =
        Except.error "App: Too early to reveive token!" ∧
    applyTx c (end_room_time_gated now c 1 signer rid vote) = c := by
  have hred := end_room_tg_reduce now c signer rid vote room hroom
  rw [i64wrap_eq_self h1 h2] at hred
  simp only [hcl, hrv] at hred
  rw [hred]
  simp [hearly, applyTx]

/-- C4 witness: `end_room_time_gated` at `now = 5` on `exRoom` (10-minute
session started at time 0) is rejected and changes nothing. -/
theorem end_room_time_gated_rejects_early_witness :
    end_room_time_gated 5 exContract 1 "adv.near" 1 7 =
        Except.error "App: Too early to reveive token!" ∧
    applyTx exContract (end_room_time_gated 5 exContract 1 "adv.near" 1 7) =
      exContract :=
  end_room_time_gated_rejects_early 5 exContract 1 exRoom "adv.near" 7
    (by decide) (by decide) (by decide) (by decide) (by decide) (by decide)

/-- C5: on every successful settlement the transferred amount is the escrowed
component times 95 divided by 100 with truncating division (bounds keep the
`u128` products from wrapping): a successful `end_room` transfers
`pending_amount * 95 / 100` to the advisor, a successful `revert_token`
transfers `amount_per_minute * minutes_last * 95 / 100` to the learner, and
an amount of 1000 yields a payout of 950. -/
theorem settlement_payout_is_95_percent_truncated
    (now : Int) (c : Contract) (rid vote : Nat) (room : Room)
    (signer : AccountId) (hroom : lmGet c.room_list rid = some room)
    (hb1 : room.pending_amount * 95 < 2 ^ 128)
    (hml0 : 0 ≤ room.minutes_last) (hml1 : room.minutes_last < 2 ^ 63)
    (hb2 : room.amount_per_minute * room.minutes_last.toNat * 95 < 2 ^ 128) :
    (∀ c' effs, end_room c 1 signer rid vote = Except.ok (c', effs) →
        Effect.ftTransfer c.token_address room.advisor
          (room.pending_amount * 95 / 100) ∈ effs) ∧
    (∀ c' effs, revert_token now c 1 rid = Except.ok (c', effs) →
        effs = [Effect.ftTransfer c.token_address room.learner
          (room.amount_per_minute * room.minutes_last.toNat * 95 / 100)]) ∧
    (1000 : Nat) * 95 / 100 = 950 := by
  have hb2' : room.amount_per_minute * room.minutes_last.toNat < 2 ^ 128 :=
    lt_of_le_of_lt (le_mul_of_one_le_right (Nat.zero_le _) (by norm_num)) hb2
  have hw1 : u128wrap (room.pending_amount * 95) = room.pending_amount * 95 :=
    u128wrap_eq_self hb1
  have hcast : i64AsU128 room.minutes_last = room.minutes_last.toNat :=
    i64AsU128_eq_toNat hml0 hml1
  refine ⟨?_, ?_, by norm_num⟩
  · intro c' effs heq
    rw [end_room_reduce c signer rid vote room hroom] at heq
    by_cases hc1 : room.claimed = true
    · simp [hc1] at heq
    · by_cases hc2 : room.reverted = true
      · simp [hc1, hc2] at heq
      · simp [hc1, hc2, Prod.ext_iff] at heq
        rw [← heq.2, hw1]
        simp
  · intro c' effs heq
    rw [revert_token_reduce now c rid room hroom] at heq
    by_cases ht : i64wrap (now - room.start_time) < room.minutes_last
    · simp [ht, Prod.ext_iff] at heq
      rw [← heq.2, hcast, u128wrap_eq_self hb2', u128wrap_eq_self hb2]
    · simp [ht] at heq

/-- C5 witness: on `exContract`'s room 1 (escrow 1000, rate 100, 10 minutes)
the claim payout and the revert payout are both 950. -/
theorem settlement_payout_is_95_percent_truncated_witness :
    Effect.ftTransfer exContract.token_address exRoom.advisor
      (exRoom.pending_amount * 95 / 100) ∈ endRoomOkEffs ∧
    revertOkEffs = [Effect.ftTransfer exContract.token_address exRoom.learner
      (exRoom.amount_per_minute * exRoom.minutes_last.toNat * 95 / 100)] :=
  ⟨(settlement_payout_is_95_percent_truncated 0 exContract 1 5 exRoom "adv.near"
      (by decide) (by decide) (by decide) (by decide) (by decide)).1
      endRoomOkState endRoomOkEffs (by decide),
   (settlement_payout_is_95_percent_truncated 0 exContract 1 5 exRoom "adv.near"
      (by decide) (by decide) (by decide) (by decide) (by decide)).2.1
      revertOkState revertOkEffs (by decide)⟩

/-- C7: the staking-oracle continuation fails fatally with
"There was an error contacting staking contract" on a communication failure,
fails fatally with the distinct reason "App: Not an advisor!" on an amount
strictly below the process-wide `verified_amount` threshold, and yields the
amount when it is at or above the threshold. -/
theorem staking_callback_distinguishes_failures (c : Contract) (amount : Nat) :
    query_staked_amount_callback c none =
      Except.error "There was an error contacting staking contract" ∧
    (amount < c.verified_amount →
      query_staked_amount_callback c (some amount) =
        Except.error "App: Not an advisor!") ∧
    (c.verified_amount ≤ amount →
      query_staked_amount_callback c (some amount) = Except.ok amount) ∧
    ("App: Not an advisor!" : String) ≠
      "There was an error contacting staking contract" := by
  refine ⟨rfl, fun hlt => ?_, fun hge => ?_, by decide⟩
  · simp [query_staked_amount_callback, hlt]
  · simp [query_staked_amount_callback, Nat.not_lt.mpr hge]

/-- C7 witness: with threshold 500, an amount of 499 is rejected as
"App: Not an advisor!" and an amount of 500 is accepted and yielded. -/
theorem staking_callback_distinguishes_failures_witness :
    query_staked_amount_callback exContract (some 499) =
      Except.error "App: Not an advisor!" ∧
    query_staked_amount_callback exContract (some 500) = Except.ok 500 :=
  ⟨(staking_callback_distinguishes_failures exContract 499).2.1 (by decide),
   (staking_callback_distinguishes_failures exContract 500).2.2.1 (by decide)⟩

/-- C9: `verify` returns `false` without failing for every 64-byte signature
accepted by the library parser and every decodable public key when the curve
verification over the subject account's bytes fails, and it fails fatally —
an `error`, which is never equal to `ok false` — when the signature bytes
have the wrong length or the public key bytes are not base58-decodable. -/
theorem verify_nonfatal_false_vs_fatal_malformed
    (sigCanon validPoint : List Nat → Bool)
    (edVerify : List Nat → List Nat → List Nat → Bool)
    (c : Contract) (sig pk : List Nat) (acct : AccountId) :
    (∀ keyBytes, sig.length = 64 → sigCanon sig = true →
        bs58decode pk = some keyBytes → keyBytes.length = 32 →
        validPoint keyBytes = true →
        edVerify keyBytes (accountBytes acct) sig = false →
        verify sigCanon validPoint edVerify c sig pk acct = Except.ok false) ∧
    (sig.length ≠ 64 →
        verify sigCanon validPoint edVerify c sig pk acct =
          Except.error "Signature should be a valid array of 64 bytes") ∧
    (sig.length = 64 → sigCanon sig = true → bs58decode pk = none →
        verify sigCanon validPoint edVerify c sig pk acct =
          Except.error "called Result::unwrap on a bs58 decode error") ∧
    (∀ e : String, (Except.error e : Except String Bool) ≠ Except.ok false) := by
  refine ⟨?_, ?_, ?_, fun e h => Except.noConfusion h⟩
  · intro kb h64 hcanon hdec h32 hvp hev
    simp [verify, h64, hcanon, hdec, h32, hvp, hev]
  · intro h64
    simp [verify, h64]
  · intro h64 hcanon hdec
    simp [verify, h64, hcanon, hdec]

/-- C9 witness: with library primitives that accept the parse and report a
verification mismatch, a 64-byte signature and a 32-byte-decoding base58 key
yield `ok false`; a 63-byte signature and a non-base58 key each fail
fatally. -/
theorem verify_nonfatal_false_vs_fatal_malformed_witness :
    verify (fun _ => true) (fun _ => true) (fun _ _ _ => false) exContract
        (List.replicate 64 0) (List.replicate 32 49) "alice" = Except.ok false ∧
    verify (fun _ => true) (fun _ => true) (fun _ _ _ => false) exContract
        (List.replicate 63 0) (List.replicate 32 49) "alice" =
      Except.error "Signature should be a valid array of 64 bytes" ∧
    verify (fun _ => true) (fun _ => true) (fun _ _ _ => false) exContract
        (List.replicate 64 0) [0] "alice" =
      Except.error "called Result::unwrap on a bs58 decode error" :=
  ⟨(verify_nonfatal_false_vs_fatal_malformed (fun _ => true) (fun _ => true)
      (fun _ _ _ => false) exContract (List.replicate 64 0)
      (List.replicate 32 49) "alice").1 (List.replicate 32 0) (by decide) rfl
      (by decide) (by decide) rfl rfl,
   (verify_nonfatal_false_vs_fatal_malformed (fun _ => true) (fun _ => true)
      (fun _ _ _ => false) exContract (List.replicate 63 0)
      (List.replicate 32 49) "alice").2.1 (by decide),
   (verify_nonfatal_false_vs_fatal_malformed (fun _ => true) (fun _ => true)
      (fun _ _ _ => false) exContract (List.replicate 64 0) [0] "alice").2.2.1
      (by decide) rfl (by decide)⟩

/-- C10: an "extend_room" transfer-notification on an existing room is
rejected with "App: Invalid learner!" whenever the transfer's sender is not
the room's recorded learner, and every accepted extension has the recorded
learner as sender. -/
theorem extend_room_requires_recorded_learner
    (now : Int) (c : Contract) (sender : AccountId) (amt apm rid : Nat)
    (advArg : Option AccountId) (mlArg : Option Int) (room : Room)
    (hroom : lmGet c.room_list rid = some room) :
    (sender ≠ room.learner →
        ft_on_transfer now c sender amt "extend_room" advArg (some apm)
            (some rid) mlArg =
          Except.error "App: Invalid learner!") ∧
    (∀ res, ft_on_transfer now c sender amt "extend_room" advArg (some apm)
            (some rid) mlArg =
          Except.ok res → sender = room.learner) := by
  rw [extend_room_reduce now c sender amt apm rid advArg mlArg room hroom]
  constructor
  · intro hne
    simp [hne]
  · intro res heq
    by_cases hs : sender = room.learner
    · exact hs
    · simp [hs] at heq

/-- C10 witness: a sender other than the recorded learner of room 1 is
rejected with "App: Invalid learner!". -/
theorem extend_room_requires_recorded_learner_witness :
    ft_on_transfer 0 exContract "mallory.near" 500 "extend_room" none
        (some 100) (some 1) (some 5) = Except.error "App: Invalid learner!" :=
  (extend_room_requires_recorded_learner 0 exContract "mallory.near" 500 100 1
      none (some 5) exRoom (by decide)).1 (by decide)

end Spk
